import Mathlib

/-!
# Verification of the neosvrpy client core

Shallow embedding of the typed request/response mapping layer of the
neosvrpy NeosVR client library (`src/neosvrpy/classes.py` and
`src/neosvrpy/client.py`), together with theorems settling the frozen
claims about it.

Modelling conventions:
* Machine-level JSON payloads for records are modelled by the structure
  `RawRecord`: one field per key the dataclasses can consume, with
  `Option` marking keys that may be absent from the raw dict.
* Timestamps (`datetime`) are modelled as integers (seconds); the only
  operations the code performs on them are subtraction and comparison.
* Python exceptions are modelled with `Except`: each `raise` becomes an
  `Except.error` carrying the exception's payload.
* The HTTP transport is an oracle `Net : String → String → Response`
  mapping (verb, path) to the server's response; the trace of issued
  network calls is returned explicitly as a `List NetCall`.
* Python truthiness of optional strings (`None` and `""` are falsy) is
  `truthyOpt`.
-/

namespace Neosvrpy

/-- `RecordType` enum from `classes.py` (six known record kinds). -/
inductive RecordType where
  | object
  | link
  | directory
  | world
  | texture
  | audio
  deriving DecidableEq, Repr

/-- The enum cast `RecordType(value)` performed by the dacite config:
a raw string is matched case-sensitively against the enum values;
an unrecognized string is a hard decode error (`none` here). -/
def decodeRecordType (s : String) : Option RecordType :=
  if s = "object" then some RecordType.object
  else if s = "link" then some RecordType.link
  else if s = "directory" then some RecordType.directory
  else if s = "world" then some RecordType.world
  else if s = "texture" then some RecordType.texture
  else if s = "audio" then some RecordType.audio
  else none

/-- A raw JSON record payload (the `dict` handed to `dacite.from_dict`).
Base `NeosRecord` keys are present (the payload is well-formed at the
base level); keys only consumed by derived dataclasses are `Option`,
`none` meaning the key is absent from the dict. -/
structure RawRecord where
  id : String
  globalVersion : Int
  localVersion : Int
  lastModifyingUserId : Option String
  name : String
  recordType : String
  path : Option String
  isPublic : Bool
  isForPatrons : Bool
  isListed : Bool
  isDeleted : Bool
  lastModificationTime : Int
  visits : Int
  rating : Int
  ownerId : String
  assetUri : Option String
  lastModifyingMachineId : Option String
  ownerName : Option String
  tags : Option (List String)
  creationTime : Option Int
  deriving DecidableEq, Repr

/-- The `NeosRecord` base dataclass from `classes.py`. -/
structure NeosRecord where
  id : String
  globalVersion : Int
  localVersion : Int
  lastModifyingUserId : Option String
  name : String
  recordType : RecordType
  path : Option String
  isPublic : Bool
  isForPatrons : Bool
  isListed : Bool
  isDeleted : Bool
  lastModificationTime : Int
  visits : Int
  rating : Int
  ownerId : String
  deriving DecidableEq, Repr

/-- The base-field part of decoding a raw payload: every base field is
copied losslessly, with `recordType` obtained by the enum cast. -/
def mkBase (r : RawRecord) (t : RecordType) : NeosRecord :=
  { id := r.id
    globalVersion := r.globalVersion
    localVersion := r.localVersion
    lastModifyingUserId := r.lastModifyingUserId
    name := r.name
    recordType := t
    path := r.path
    isPublic := r.isPublic
    isForPatrons := r.isForPatrons
    isListed := r.isListed
    isDeleted := r.isDeleted
    lastModificationTime := r.lastModificationTime
    visits := r.visits
    rating := r.rating
    ownerId := r.ownerId }

/-- Decode errors of the record pipeline.  `unknownRecordType` models the
hard error raised by the `RecordType` enum cast on an unrecognized
discriminant (the spec's `UnknownRecordType`); `missingField` models
dacite's missing-value error for a required derived field. -/
inductive DecodeError where
  | unknownRecordType (s : String)
  | missingField (f : String)
  deriving DecidableEq, Repr

/-- `dacite.from_dict(NeosRecord, raw_item, DACITE_CONFIG)`. -/
def decodeBase (r : RawRecord) : Except DecodeError NeosRecord :=
  match decodeRecordType r.recordType with
  | none => Except.error (DecodeError.unknownRecordType r.recordType)
  | some t => Except.ok (mkBase r t)

/-- `NeosLink` (`assetUri` required; the URI is kept as its raw string,
its parse never loses the string). -/
structure NeosLink where
  base : NeosRecord
  assetUri : String
  deriving DecidableEq, Repr

/-- `NeosDirectory` (`ownerName` and `tags` required;
`lastModifyingMachineId` and `creationTime` optional). -/
structure NeosDirectory where
  base : NeosRecord
  lastModifyingMachineId : Option String
  ownerName : String
  tags : List String
  creationTime : Option Int
  deriving DecidableEq, Repr

/-- `NeosObject` (all five derived fields required). -/
structure NeosObject where
  base : NeosRecord
  assetUri : String
  lastModifyingMachineId : String
  ownerName : String
  tags : List String
  creationTime : Int
  deriving DecidableEq, Repr

/-- The six derived dataclasses of the record family, as a sum.
`world`, `texture` and `audio` add no fields beyond the base. -/
inductive SomeRecord where
  | object (o : NeosObject)
  | link (l : NeosLink)
  | directory (d : NeosDirectory)
  | world (base : NeosRecord)
  | texture (base : NeosRecord)
  | audio (base : NeosRecord)
  deriving DecidableEq, Repr

/-- The derived dataclass selected for a record, as a tag. -/
inductive DerivedClass where
  | neosObject
  | neosLink
  | neosDirectory
  | neosWorld
  | neosTexture
  | neosAudio
  deriving DecidableEq, Repr

/-- The fixed `recordTypeMapping` table from `classes.py`: which derived
dataclass is decoded for each `RecordType`. -/
def recordTypeMapping : RecordType → DerivedClass
  | RecordType.directory => DerivedClass.neosDirectory
  | RecordType.link => DerivedClass.neosLink
  | RecordType.object => DerivedClass.neosObject
  | RecordType.world => DerivedClass.neosWorld
  | RecordType.texture => DerivedClass.neosTexture
  | RecordType.audio => DerivedClass.neosAudio

/-- Which derived dataclass a decoded value belongs to. -/
def SomeRecord.cls : SomeRecord → DerivedClass
  | SomeRecord.object _ => DerivedClass.neosObject
  | SomeRecord.link _ => DerivedClass.neosLink
  | SomeRecord.directory _ => DerivedClass.neosDirectory
  | SomeRecord.world _ => DerivedClass.neosWorld
  | SomeRecord.texture _ => DerivedClass.neosTexture
  | SomeRecord.audio _ => DerivedClass.neosAudio

/-- The base `NeosRecord` part of a decoded value. -/
def SomeRecord.base : SomeRecord → NeosRecord
  | SomeRecord.object o => o.base
  | SomeRecord.link l => l.base
  | SomeRecord.directory d => d.base
  | SomeRecord.world b => b
  | SomeRecord.texture b => b
  | SomeRecord.audio b => b

/-- `dacite.from_dict(NeosDirectory, raw, DACITE_CONFIG)`: the directory
decode given an already-cast record type. -/
def decodeDirectoryFields (r : RawRecord) (t : RecordType) :
    Except DecodeError NeosDirectory :=
  match r.ownerName with
  | none => Except.error (DecodeError.missingField "ownerName")
  | some o =>
    match r.tags with
    | none => Except.error (DecodeError.missingField "tags")
    | some tg =>
      Except.ok
        { base := mkBase r t
          lastModifyingMachineId := r.lastModifyingMachineId
          ownerName := o
          tags := tg
          creationTime := r.creationTime }

/-- `dacite.from_dict(NeosDirectory, response, DACITE_CONFIG)` on a raw
payload, including the enum cast of `recordType`. -/
def decodeDirectory (r : RawRecord) : Except DecodeError NeosDirectory :=
  match decodeRecordType r.recordType with
  | none => Except.error (DecodeError.unknownRecordType r.recordType)
  | some t => decodeDirectoryFields r t

/-- `dacite.from_dict(recordTypeMapping[item.recordType], raw_item, ...)`:
the second decode of `processRecordList`, into the derived dataclass
selected by the table. -/
def decodeDerived (r : RawRecord) (t : RecordType) :
    Except DecodeError SomeRecord :=
  match t with
  | RecordType.object =>
    match r.assetUri with
    | none => Except.error (DecodeError.missingField "assetUri")
    | some a =>
      match r.lastModifyingMachineId with
      | none => Except.error (DecodeError.missingField "lastModifyingMachineId")
      | some m =>
        match r.ownerName with
        | none => Except.error (DecodeError.missingField "ownerName")
        | some o =>
          match r.tags with
          | none => Except.error (DecodeError.missingField "tags")
          | some tg =>
            match r.creationTime with
            | none => Except.error (DecodeError.missingField "creationTime")
            | some c =>
              Except.ok (SomeRecord.object
                { base := mkBase r t, assetUri := a,
                  lastModifyingMachineId := m, ownerName := o,
                  tags := tg, creationTime := c })
  | RecordType.link =>
    match r.assetUri with
    | none => Except.error (DecodeError.missingField "assetUri")
    | some a => Except.ok (SomeRecord.link { base := mkBase r t, assetUri := a })
  | RecordType.directory =>
    (decodeDirectoryFields r t).map SomeRecord.directory
  | RecordType.world => Except.ok (SomeRecord.world (mkBase r t))
  | RecordType.texture => Except.ok (SomeRecord.texture (mkBase r t))
  | RecordType.audio => Except.ok (SomeRecord.audio (mkBase r t))

/-- One iteration of the `processRecordList` loop: decode the base shape
(reading `recordType` via the enum cast), then re-decode the same raw
payload into the derived dataclass from the table. -/
def decodeRecord (r : RawRecord) : Except DecodeError SomeRecord :=
  match decodeBase r with
  | Except.error e => Except.error e
  | Except.ok item => decodeDerived r item.recordType

/-- `Client.processRecordList`: decode each payload in order; the first
failure aborts the whole decode (the exception propagates). -/
def processRecordList : List RawRecord → Except DecodeError (List SomeRecord)
  | [] => Except.ok []
  | r :: rest =>
    match decodeRecord r with
    | Except.error e => Except.error e
    | Except.ok x =>
      match processRecordList rest with
      | Except.error e => Except.error e
      | Except.ok xs => Except.ok (x :: xs)

/-- A raw payload holds every key the derived dataclass for `t`
requires beyond the base fields. -/
def wellFormedFor (r : RawRecord) (t : RecordType) : Bool :=
  match t with
  | RecordType.object =>
    r.assetUri.isSome && r.lastModifyingMachineId.isSome &&
      r.ownerName.isSome && r.tags.isSome && r.creationTime.isSome
  | RecordType.link => r.assetUri.isSome
  | RecordType.directory => r.ownerName.isSome && r.tags.isSome
  | RecordType.world => true
  | RecordType.texture => true
  | RecordType.audio => true

/-- A raw payload is well formed: when its discriminant names a known
record type, the keys the selected derived dataclass needs are present.
(A payload with an unknown discriminant is still well formed — decoding
it must fail with the unknown-record-type error, not a missing-field
error.) -/
def rawOk (r : RawRecord) : Bool :=
  match decodeRecordType r.recordType with
  | some t => wellFormedFor r t
  | none => true

/-- All base `NeosRecord` fields of the decoded value agree with the raw
payload, with `recordType` the enum cast of the raw discriminant. -/
def basePreserved (r : RawRecord) (b : NeosRecord) : Prop :=
  b.id = r.id ∧ b.globalVersion = r.globalVersion ∧
  b.localVersion = r.localVersion ∧
  b.lastModifyingUserId = r.lastModifyingUserId ∧ b.name = r.name ∧
  decodeRecordType r.recordType = some b.recordType ∧ b.path = r.path ∧
  b.isPublic = r.isPublic ∧ b.isForPatrons = r.isForPatrons ∧
  b.isListed = r.isListed ∧ b.isDeleted = r.isDeleted ∧
  b.lastModificationTime = r.lastModificationTime ∧ b.visits = r.visits ∧
  b.rating = r.rating ∧ b.ownerId = r.ownerId

/-! ## Client (`client.py`) -/

/-- Python truthiness of an optional string: `None` and `""` are falsy. -/
def truthyOpt : Option String → Bool
  | none => false
  | some s => !s.isEmpty

/-- Python `"{}".format(x)` on an optional string: `None` prints as
`"None"`. -/
def optFormat : Option String → String
  | none => "None"
  | some s => s

/-- Modelled from the spec: the package version interpolated into the
`User-Agent` header (`__version__` lives in the package `__init__`,
outside the embedded sources; its concrete value is immaterial to every
claim). -/
def neosvrpyVersion : String := "0.0.0"

/-- The `User-Agent` header value `f"neosvrpy/{__version__}"`. -/
def userAgentValue : String := "neosvrpy/" ++ neosvrpyVersion

/-- A query-string parameter value (`requests` accepts strings, ints and
bools). -/
inductive ParamV where
  | str (s : String)
  | int (n : Int)
  | bool (b : Bool)
  deriving DecidableEq, Repr

/-- One HTTP call handed to the transport: verb, path (relative to the
fixed API base URL) and query parameters. -/
structure NetCall where
  verb : String
  path : String
  params : List (String × ParamV)
  deriving DecidableEq, Repr

/-- An HTTP response as seen by `_request`: status code, raw body text,
headers, and the result of `req.json()` — `some fields` when the body
parses as a JSON object with those string fields, `none` when parsing
raises `JSONDecodeError`. -/
structure Response where
  status : Nat
  text : String
  headers : List (String × String)
  jsonBody : Option (List (String × String))
  deriving DecidableEq, Repr

/-- Payload of an `InvalidToken` exception: the constructor is called
with the response headers at a 403 and with a message at local expiry. -/
inductive TokenErrInfo where
  | headers (hs : List (String × String))
  | text (s : String)
  deriving DecidableEq, Repr

/-- The exceptions `_request` and its callers can raise
(`neosvrpy.exceptions`; `valueError` is Python's builtin `ValueError`). -/
inductive RequestError where
  | invalidCredentials (text : String)
  | invalidToken (info : TokenErrInfo)
  | apiError (resp : Response) (message : Option String)
  | valueError (msg : String)
  deriving DecidableEq, Repr

/-- A successful `_request` outcome: decoded JSON object, raw text for a
non-JSON 200 body, or nothing for a 204. -/
inductive RequestResult where
  | json (fields : List (String × String))
  | text (s : String)
  | empty
  deriving DecidableEq, Repr

instance {ε α : Type} [DecidableEq ε] [DecidableEq α] :
    DecidableEq (Except ε α) := fun x y =>
  match x, y with
  | Except.ok a, Except.ok b =>
    if h : a = b then Decidable.isTrue (by rw [h])
    else Decidable.isFalse (by intro hh; cases hh; exact h rfl)
  | Except.error e, Except.error f =>
    if h : e = f then Decidable.isTrue (by rw [h])
    else Decidable.isFalse (by intro hh; cases hh; exact h rfl)
  | Except.ok _, Except.error _ => Decidable.isFalse (by intro hh; cases hh)
  | Except.error _, Except.ok _ => Decidable.isFalse (by intro hh; cases hh)

/-- Whether `needle` occurs as a contiguous run inside `haystack`. -/
def charsContain : List Char → List Char → Bool
  | [], needle => needle.isEmpty
  | c :: rest, needle =>
    List.isPrefixOf needle (c :: rest) || charsContain rest needle

/-- Python `needle in haystack` on strings (substring test). -/
def strContains (haystack needle : String) : Bool :=
  charsContain haystack.data needle.data

/-- First-match association-list lookup (Python dict key access /
`key in dict`). -/
def assocLookup {α : Type} (d : List (String × α)) (k : String) : Option α :=
  match d with
  | [] => none
  | kv :: rest => if kv.1 = k then some kv.2 else assocLookup rest k

/-- Response classification of `_request` (`client.py` lines 119–137):
statuses outside {200, 204} raise, in this order: `InvalidCredentials`
when the body contains the `"Invalid credentials"` marker, `InvalidToken`
(with the headers) at 403, generic `NeosAPIException` otherwise; a 200
JSON object body with a `"message"` field raises `NeosAPIException` with
that message, a 200 JSON body without one is the success payload, a
non-JSON 200 body is returned as raw text, and a 204 returns nothing. -/
def classify (req : Response) : Except RequestError RequestResult :=
  if req.status = 200 ∨ req.status = 204 then
    if req.status = 200 then
      match req.jsonBody with
      | some fields =>
        match assocLookup fields "message" with
        | some m => Except.error (RequestError.apiError req (some m))
        | none => Except.ok (RequestResult.json fields)
      | none => Except.ok (RequestResult.text req.text)
    else Except.ok RequestResult.empty
  else
    if strContains req.text "Invalid credentials" then
      Except.error (RequestError.invalidCredentials req.text)
    else if req.status = 403 then
      Except.error (RequestError.invalidToken (TokenErrInfo.headers req.headers))
    else
      Except.error (RequestError.apiError req none)

/-- The transport oracle: the server's response to a (verb, path) pair. -/
def Net : Type := String → String → Response

/-- The mutable session/credential state of the `Client` dataclass.
`sessionHeaders` models the persistent `requests.Session` header dict. -/
structure Client where
  userId : Option String
  token : Option String
  expire : Option Int
  rememberMe : Bool
  lastUpdate : Option Int
  secretMachineId : Option String
  sessionHeaders : List (String × String)
  deriving DecidableEq, Repr

/-- The `Client.headers` property: only `User-Agent` when `userId` or
`token` is falsy, otherwise additionally
`Authorization: neos {userId}:{token}`. -/
def Client.headers (c : Client) : List (String × String) :=
  if !truthyOpt c.userId || !truthyOpt c.token then
    [("User-Agent", userAgentValue)]
  else
    [("User-Agent", userAgentValue),
     ("Authorization", "neos " ++ optFormat c.userId ++ ":" ++ optFormat c.token)]

/-- One transport call: record the `NetCall` and classify the server's
response. -/
def rawCall (net : Net) (verb path : String)
    (params : List (String × ParamV)) :
    NetCall × Except RequestError RequestResult :=
  (⟨verb, path, params⟩, classify (net verb path))

/-- `Client._request` (`client.py` lines 97–137), with the renewal gate
of lines 101–113.  `now` stands for `datetime.now()` (in seconds);
time enters only through the difference `now - lastUpdate`.  Returns the
trace of issued network calls, the updated client state, and the outcome.
The internal keep-alive PATCH is the recursive call with
`ignoreUpdate = true`, which skips the gate, so it is a single
`rawCall`; if it raises, the exception propagates and the original
operation is never issued. -/
def Client.request (net : Net) (now : Int) (c : Client)
    (verb path : String) (params : List (String × ParamV))
    (ignoreUpdate : Bool) :
    List NetCall × Client × Except RequestError RequestResult :=
  match ignoreUpdate with
  | true =>
    let orig := rawCall net verb path params
    ([orig.1], c, orig.2)
  | false =>
    match c.lastUpdate with
    | none =>
      let orig := rawCall net verb path params
      ([orig.1], c, orig.2)
    | some lu =>
      if now - lu ≤ 3600000 then
        let keepAlive := rawCall net "patch" "/userSessions" []
        match keepAlive.2 with
        | Except.error e => ([keepAlive.1], c, Except.error e)
        | Except.ok _ =>
          let c' := { c with lastUpdate := some now }
          let orig := rawCall net verb path params
          ([keepAlive.1, orig.1], c', orig.2)
      else
        ([], c, Except.error (RequestError.invalidToken (TokenErrInfo.text "Token expired")))

/-- Dict assignment `d[k] = v`: overwrite in place when the key exists,
else append. -/
def dictSet (d : List (String × String)) (k v : String) :
    List (String × String) :=
  if (assocLookup d k).isSome then
    d.map (fun kv => if kv.1 = k then (k, v) else kv)
  else d ++ [(k, v)]

/-- Python `dict.update`: assign every pair of `upd` in order. -/
def dictUpdate (d upd : List (String × String)) : List (String × String) :=
  upd.foldl (fun acc kv => dictSet acc kv.1 kv.2) d

/-- `del d[k]` (the callers below only invoke it when the key exists). -/
def dictDel (d : List (String × String)) (k : String) :
    List (String × String) :=
  d.filter (fun kv => kv.1 ≠ k)

/-- `Client.clean_session`: null out every credential field, delete the
`Authorization` session header, then merge the (now unauthenticated)
`headers` property back into the session headers. -/
def Client.clean_session (c : Client) : Client :=
  let c' : Client :=
    { c with userId := none, token := none, expire := none,
             secretMachineId := none, lastUpdate := none,
             sessionHeaders := dictDel c.sessionHeaders "Authorization" }
  { c' with sessionHeaders := dictUpdate c'.sessionHeaders c'.headers }

/-- The session resource path
`"/userSessions/{}/{}".format(self.userId, self.token)`. -/
def logoutPath (c : Client) : String :=
  "/userSessions/" ++ optFormat c.userId ++ "/" ++ optFormat c.token

/-- `Client.logout`: DELETE the session resource (bypassing the renewal
gate), then — only when the server call returned success — clear the
local session state.  When `_request` raises, the exception propagates
and the state is untouched. -/
def Client.logout (net : Net) (now : Int) (c : Client) :
    List NetCall × Client × Except RequestError Unit :=
  let r := Client.request net now c "delete" (logoutPath c) [] true
  match r.2.2 with
  | Except.error e => (r.1, r.2.1, Except.error e)
  | Except.ok _ => (r.1, Client.clean_session r.2.1, Except.ok ())

/-- The persisted token file `auth.token`: JSON object
`{userId, expire, token, secretMachineId}` (string fields may be JSON
`null`; `expire` is stored in ISO-8601, which round-trips losslessly, so
it is kept as the timestamp itself). -/
structure TokenFile where
  userId : Option String
  expire : Int
  token : Option String
  secretMachineId : Option String
  deriving DecidableEq, Repr

/-- `NoTokenError`. -/
inductive NoTokenError where
  | noToken
  deriving DecidableEq, Repr

/-- `Client.saveToken`: dump the four credential fields to the token
file.  `none` when `expire` is unset (the source would fail on
`None.isoformat()`). -/
def Client.saveToken (c : Client) : Option TokenFile :=
  match c.expire with
  | some e =>
    some { userId := c.userId, expire := e, token := c.token,
           secretMachineId := c.secretMachineId }
  | none => none

/-- `Client.loadToken`: `NoTokenError` when the file is absent or the
stored `expire` is not in the future; otherwise install the stored
credentials and refresh the session headers.  On error nothing is
assigned (the exception is raised before any assignment). -/
def Client.loadToken (file : Option TokenFile) (now : Int) (c : Client) :
    Except NoTokenError Client :=
  match file with
  | some f =>
    if now < f.expire then
      let c' : Client :=
        { c with token := f.token, userId := f.userId,
                 expire := some f.expire,
                 secretMachineId := f.secretMachineId }
      Except.ok { c' with sessionHeaders := dictUpdate c'.sessionHeaders c'.headers }
    else Except.error NoTokenError.noToken
  | none => Except.error NoTokenError.noToken

/-- The `LoginDetails` dataclass (validated fields only; `rememberMe`
and the machine id carry no invariant). -/
structure LoginDetails where
  ownerId : Option String
  username : Option String
  email : Option String
  password : Option String
  secretMachineId : String
  rememberMe : Bool
  deriving DecidableEq, Repr

/-- `LoginDetails.__post_init__` as a validating constructor: a
`NeosException` (modelled by `Except.error` with its message) when no
identity field is truthy or the password is not truthy; otherwise the
fully-built instance.  No partially-built value is ever exposed. -/
def mkLoginDetails (ownerId username email password : Option String)
    (secretMachineId : String) (rememberMe : Bool) :
    Except String LoginDetails :=
  if !truthyOpt ownerId && !truthyOpt username && !truthyOpt email then
    Except.error "Either an ownerId, an username or an email is needed"
  else if !truthyOpt password then
    Except.error "A password is needed"
  else
    Except.ok { ownerId := ownerId, username := username, email := email,
                password := password, secretMachineId := secretMachineId,
                rememberMe := rememberMe }

/-- `Client.getMessageLegacy`: `ValueError` before any network call when
`fromTime` is truthy; otherwise GET the messages endpoint with
`maxItems`, `unreadOnly` and — when truthy — `user` parameters, through
the usual `_request` gate. -/
def Client.getMessageLegacy (net : Net) (now : Int) (c : Client)
    (fromTime : Option String) (maxItems : Int) (user : Option String)
    (unreadOnly : Bool) :
    List NetCall × Client × Except RequestError RequestResult :=
  if truthyOpt fromTime then
    ([], c, Except.error (RequestError.valueError "fromTime is not yet implemented"))
  else
    let params := [("maxItems", ParamV.int maxItems),
                   ("unreadOnly", ParamV.bool unreadOnly)]
    let params := if truthyOpt user then params ++ [("user", ParamV.str (optFormat user))]
                  else params
    Client.request net now c "get"
      ("/users/" ++ optFormat c.userId ++ "/messages") params false

/-- Splitting a character list on a separator character
(Python `str.split` with a one-character separator). -/
def splitOnChar (sep : Char) : List Char → List (List Char)
  | [] => [[]]
  | c :: rest =>
    if c = sep then [] :: splitOnChar sep rest
    else
      match splitOnChar sep rest with
      | [] => [[c]]
      | g :: gs => (c :: g) :: gs

/-- Python `s.split("/")`. -/
def pySplitSlash (s : String) : List String :=
  (splitOnChar '/' s.data).map (fun cs => String.mk cs)

/-- The unpack-and-build step of `Client.resolveLink`
(`_, user, record = link.assetUri.path.split("/")`): the GET call for
the record the link points to, or `none` when the path does not split
into exactly three segments (the tuple unpack would raise). -/
def resolveLinkCall (assetUriPath : String) : Option NetCall :=
  match pySplitSlash assetUriPath with
  | [_, user, record] =>
    some ⟨"get", "/users/" ++ user ++ "/records/" ++ record, []⟩
  | _ => none

/-! ## Concrete samples (used to instantiate the theorems below) -/

/-- A well-formed raw payload of record type `world`. -/
def rawWorldSample : RawRecord :=
  { id := "R-1", globalVersion := 3, localVersion := 2,
    lastModifyingUserId := some "U-m", name := "w", recordType := "world",
    path := some "Inventory", isPublic := true, isForPatrons := false,
    isListed := true, isDeleted := false, lastModificationTime := 100,
    visits := 7, rating := 1, ownerId := "U-o", assetUri := none,
    lastModifyingMachineId := none, ownerName := none, tags := none,
    creationTime := none }

/-- A well-formed raw payload of record type `link`. -/
def rawLinkSample : RawRecord :=
  { rawWorldSample with
    id := "R-2"
    name := "l"
    recordType := "link"
    assetUri := some "neosrec:///U-abc/R-def" }

/-- A well-formed raw payload of record type `directory`. -/
def rawDirSample : RawRecord :=
  { rawWorldSample with
    id := "R-3"
    name := "d"
    recordType := "directory"
    ownerName := some "owner"
    tags := some ["a", "b"]
    creationTime := some 90 }

/-- A raw payload with an unrecognized record type discriminant. -/
def rawBadSample : RawRecord :=
  { rawWorldSample with id := "R-4", name := "x", recordType := "mesh" }

/-- An authenticated client state. -/
def clientSample : Client :=
  { userId := some "U-w", token := some "tok", expire := some 99,
    rememberMe := false, lastUpdate := some 20, secretMachineId := some "m",
    sessionHeaders := [("User-Agent", userAgentValue),
                       ("Authorization", "neos U-w:tok")] }

/-- A fresh, unauthenticated client state. -/
def clientEmpty : Client :=
  { userId := none, token := none, expire := none, rememberMe := false,
    lastUpdate := none, secretMachineId := none,
    sessionHeaders := [("User-Agent", userAgentValue)] }

/-! ## Helper lemmas -/

theorem assocLookup_append {α : Type} (d₁ d₂ : List (String × α)) (k : String) :
    assocLookup (d₁ ++ d₂) k =
      match assocLookup d₁ k with
      | some v => some v
      | none => assocLookup d₂ k := by
  induction d₁ with
  | nil => simp [assocLookup]
  | cons kv rest ih =>
    by_cases h : kv.1 = k
    · simp [assocLookup, h]
    · simp [assocLookup, h, ih]

theorem assocLookup_dictDel (d : List (String × String)) (k : String) :
    assocLookup (dictDel d k) k = none := by
  induction d with
  | nil => rfl
  | cons kv rest ih =>
    by_cases h : kv.1 = k
    · simp [dictDel, h, List.filter] at ih ⊢
      exact ih
    · simp [dictDel, List.filter, h, assocLookup] at ih ⊢
      exact ih

theorem assocLookup_map_set (d : List (String × String)) (k k' v : String)
    (h : k ≠ k') :
    assocLookup (d.map (fun kv => if kv.1 = k' then (k', v) else kv)) k =
      assocLookup d k := by
  induction d with
  | nil => rfl
  | cons kv rest ih =>
    obtain ⟨k₀, v₀⟩ := kv
    by_cases hk : k₀ = k'
    · subst hk
      have hne : ¬(k₀ = k) := fun hh => h hh.symm
      simp [assocLookup, hne, ih]
    · simp only [List.map_cons, assocLookup, if_neg hk]
      rw [ih]

theorem assocLookup_dictSet_ne (d : List (String × String)) (k k' v : String)
    (h : k ≠ k') :
    assocLookup (dictSet d k' v) k = assocLookup d k := by
  unfold dictSet
  split
  · exact assocLookup_map_set d k k' v h
  · rw [assocLookup_append]
    cases hd : assocLookup d k with
    | some w => rfl
    | none =>
      have hne : ¬(k' = k) := fun hh => h hh.symm
      simp [assocLookup, hne]

theorem clean_session_no_auth (c : Client) :
    assocLookup (Client.clean_session c).sessionHeaders "Authorization" = none := by
  show assocLookup
    (dictSet (dictDel c.sessionHeaders "Authorization") "User-Agent"
      userAgentValue) "Authorization" = none
  rw [assocLookup_dictSet_ne _ _ _ _ (by decide)]
  exact assocLookup_dictDel c.sessionHeaders "Authorization"

theorem mkBase_recordType (r : RawRecord) (t : RecordType) :
    (mkBase r t).recordType = t := rfl

theorem basePreserved_mkBase (r : RawRecord) (t : RecordType)
    (ht : decodeRecordType r.recordType = some t) :
    basePreserved r (mkBase r t) :=
  ⟨rfl, rfl, rfl, rfl, rfl, ht, rfl, rfl, rfl, rfl, rfl, rfl, rfl, rfl, rfl⟩

theorem decodeRecord_spec (r : RawRecord) (t : RecordType)
    (ht : decodeRecordType r.recordType = some t)
    (hwf : wellFormedFor r t = true) :
    ∃ x, decodeRecord r = Except.ok x ∧ x.base = mkBase r t ∧
      x.cls = recordTypeMapping t := by
  unfold decodeRecord decodeBase
  rw [ht]
  cases t with
  | object =>
    simp only [wellFormedFor, Bool.and_eq_true, Option.isSome_iff_exists] at hwf
    obtain ⟨⟨⟨⟨⟨a, ha⟩, m, hm⟩, o, ho⟩, tg, htg⟩, ct, hct⟩ := hwf
    exact ⟨SomeRecord.object
      { base := mkBase r RecordType.object, assetUri := a,
        lastModifyingMachineId := m, ownerName := o, tags := tg,
        creationTime := ct },
      by simp [mkBase_recordType, decodeDerived, ha, hm, ho, htg, hct], rfl, rfl⟩
  | link =>
    simp only [wellFormedFor, Option.isSome_iff_exists] at hwf
    obtain ⟨a, ha⟩ := hwf
    exact ⟨SomeRecord.link { base := mkBase r RecordType.link, assetUri := a },
      by simp [mkBase_recordType, decodeDerived, ha], rfl, rfl⟩
  | directory =>
    simp only [wellFormedFor, Bool.and_eq_true, Option.isSome_iff_exists] at hwf
    obtain ⟨⟨o, ho⟩, tg, htg⟩ := hwf
    exact ⟨SomeRecord.directory
      { base := mkBase r RecordType.directory,
        lastModifyingMachineId := r.lastModifyingMachineId, ownerName := o,
        tags := tg, creationTime := r.creationTime },
      by simp [mkBase_recordType, decodeDerived, decodeDirectoryFields, ho, htg, Except.map], rfl, rfl⟩
  | world => exact ⟨SomeRecord.world (mkBase r RecordType.world), rfl, rfl, rfl⟩
  | texture => exact ⟨SomeRecord.texture (mkBase r RecordType.texture), rfl, rfl, rfl⟩
  | audio => exact ⟨SomeRecord.audio (mkBase r RecordType.audio), rfl, rfl, rfl⟩

theorem rawOk_wf {r : RawRecord} {t : RecordType}
    (h : rawOk r = true) (ht : decodeRecordType r.recordType = some t) :
    wellFormedFor r t = true := by
  unfold rawOk at h
  rw [ht] at h
  exact h

/-! ## Claims -/

/-- C1: for every list of well-formed raw record payloads,
`processRecordList` decodes each payload whose `recordType` is one of
the six known values into the derived dataclass selected by the fixed
`recordTypeMapping` table, with every base `NeosRecord` field preserved
losslessly from the payload; when some payload's `recordType` is not
one of those values, decoding fails hard with the unknown-record-type
error instead of silently dropping the payload. -/
theorem c1_record_decoding (data : List RawRecord)
    (hwf : ∀ r ∈ data, rawOk r = true) :
    ((∀ r ∈ data, (decodeRecordType r.recordType).isSome = true) →
      ∃ out, processRecordList data = Except.ok out ∧
        List.Forall₂ (fun (r : RawRecord) (x : SomeRecord) =>
          basePreserved r x.base ∧ x.cls = recordTypeMapping x.base.recordType)
          data out) ∧
    ((∃ r ∈ data, decodeRecordType r.recordType = none) →
      ∃ s, processRecordList data = Except.error (DecodeError.unknownRecordType s) ∧
        decodeRecordType s = none) := by
  induction data with
  | nil =>
    refine ⟨fun _ => ⟨[], rfl, List.Forall₂.nil⟩, fun h => ?_⟩
    obtain ⟨r, hr, _⟩ := h
    exact absurd hr (List.not_mem_nil r)
  | cons r rest ih =>
    have hr1 : rawOk r = true := hwf r (List.mem_cons_self r rest)
    have hwfrest : ∀ r' ∈ rest, rawOk r' = true :=
      fun r' h => hwf r' (List.mem_cons_of_mem r h)
    obtain ⟨ihA, ihB⟩ := ih hwfrest
    constructor
    · intro hall
      have hsome := hall r (List.mem_cons_self r rest)
      obtain ⟨t, ht⟩ := Option.isSome_iff_exists.mp hsome
      obtain ⟨x, hx, hb, hcls⟩ := decodeRecord_spec r t ht (rawOk_wf hr1 ht)
      obtain ⟨out, hout, hfa⟩ :=
        ihA (fun r' h => hall r' (List.mem_cons_of_mem r h))
      refine ⟨x :: out, ?_, ?_⟩
      · simp [processRecordList, hx, hout]
      · refine List.Forall₂.cons ⟨?_, ?_⟩ hfa
        · rw [hb]
          exact basePreserved_mkBase r t ht
        · rw [hb, mkBase_recordType]
          exact hcls
    · intro hex
      by_cases hru : decodeRecordType r.recordType = none
      · refine ⟨r.recordType, ?_, hru⟩
        simp [processRecordList, decodeRecord, decodeBase, hru]
      · have hsome : (decodeRecordType r.recordType).isSome = true := by
          cases h : decodeRecordType r.recordType with
          | none => exact absurd h hru
          | some t => rfl
        obtain ⟨t, ht⟩ := Option.isSome_iff_exists.mp hsome
        obtain ⟨x, hx, _, _⟩ := decodeRecord_spec r t ht (rawOk_wf hr1 ht)
        obtain ⟨r', hr', hnone⟩ := hex
        have hr'rest : r' ∈ rest := by
          rcases List.mem_cons.mp hr' with h | h
          · rw [h] at hnone
            exact absurd hnone hru
          · exact h
        obtain ⟨s, hs, hsnone⟩ := ihB ⟨r', hr'rest, hnone⟩
        refine ⟨s, ?_, hsnone⟩
        simp [processRecordList, hx, hs]

/-- Witness for C1: a concrete well-formed list decodes into the mapped
derived shapes, and a concrete list holding an unknown discriminant
fails with the unknown-record-type error. -/
theorem c1_record_decoding_witness :
    (∃ out, processRecordList [rawWorldSample, rawLinkSample] = Except.ok out ∧
      List.Forall₂ (fun (r : RawRecord) (x : SomeRecord) =>
        basePreserved r x.base ∧ x.cls = recordTypeMapping x.base.recordType)
        [rawWorldSample, rawLinkSample] out) ∧
    (∃ s, processRecordList [rawWorldSample, rawBadSample] =
        Except.error (DecodeError.unknownRecordType s) ∧
      decodeRecordType s = none) := by
  constructor
  · exact (c1_record_decoding [rawWorldSample, rawLinkSample] (by decide)).1
      (by decide)
  · exact (c1_record_decoding [rawWorldSample, rawBadSample] (by decide)).2
      ⟨rawBadSample, by decide, by decide⟩

/-- C2 (counterexample): the claim's first rule restricts the
`InvalidCredentials` classification to non-2xx responses, and its third
rule sends every other status outside {200, 204} to the generic
`APIError`; the code instead checks the body marker for every status
outside {200, 204}.  At status 201 — inside the claim's scope, 2xx, not
403 — with the marker in the body, the claim's precedence predicts the
generic `APIError`, but `classify` raises `InvalidCredentials`. -/
theorem c2_classification_counterexample :
    (¬((201 : Nat) = 200 ∨ (201 : Nat) = 204)) ∧
    (200 ≤ (201 : Nat) ∧ (201 : Nat) ≤ 299) ∧
    (201 : Nat) ≠ 403 ∧
    strContains "Invalid credentials" "Invalid credentials" = true ∧
    classify { status := 201, text := "Invalid credentials", headers := [],
               jsonBody := none } =
      Except.error (RequestError.invalidCredentials "Invalid credentials") ∧
    (Except.error (RequestError.invalidCredentials "Invalid credentials") :
        Except RequestError RequestResult) ≠
      Except.error (RequestError.apiError
        { status := 201, text := "Invalid credentials", headers := [],
          jsonBody := none } none) := by
  decide

/-- C2 (amended): for every response whose status is outside {200, 204},
classification follows this precedence: a body containing the
`"Invalid credentials"` marker raises `InvalidCredentials` carrying the
raw body text (even when the status is not 403, and even when it is a
2xx status such as 201); otherwise a status of 403 raises `InvalidToken`
carrying the response headers; otherwise a generic `APIError` carrying
the full response is raised. -/
theorem c2_classification (req : Response)
    (h : ¬(req.status = 200 ∨ req.status = 204)) :
    (strContains req.text "Invalid credentials" = true →
      classify req = Except.error (RequestError.invalidCredentials req.text)) ∧
    (strContains req.text "Invalid credentials" = false → req.status = 403 →
      classify req =
        Except.error (RequestError.invalidToken (TokenErrInfo.headers req.headers))) ∧
    (strContains req.text "Invalid credentials" = false → req.status ≠ 403 →
      classify req = Except.error (RequestError.apiError req none)) := by
  refine ⟨?_, ?_, ?_⟩
  · intro hm
    unfold classify
    rw [if_neg h]
    simp [hm]
  · intro hm h403
    unfold classify
    rw [if_neg h]
    simp [hm, h403]
  · intro hm h403
    unfold classify
    rw [if_neg h]
    simp [hm, h403]

/-- Witness for C2 (amended): the three branches at concrete responses —
a 500 with the marker, a marker-free 403, and a marker-free 500. -/
theorem c2_classification_witness :
    classify { status := 500, text := "x Invalid credentials x", headers := [],
               jsonBody := none } =
      Except.error (RequestError.invalidCredentials "x Invalid credentials x") ∧
    classify { status := 403, text := "denied", headers := [("k", "v")],
               jsonBody := none } =
      Except.error (RequestError.invalidToken (TokenErrInfo.headers [("k", "v")])) ∧
    classify { status := 500, text := "boom", headers := [], jsonBody := none } =
      Except.error (RequestError.apiError
        { status := 500, text := "boom", headers := [], jsonBody := none } none) := by
  refine ⟨?_, ?_, ?_⟩
  · exact (c2_classification
      { status := 500, text := "x Invalid credentials x", headers := [],
        jsonBody := none } (by decide)).1 (by decide)
  · exact (c2_classification
      { status := 403, text := "denied", headers := [("k", "v")],
        jsonBody := none } (by decide)).2.1 (by decide) rfl
  · exact (c2_classification
      { status := 500, text := "boom", headers := [], jsonBody := none }
      (by decide)).2.2 (by decide) (by decide)

/-- C3: a 200 response whose JSON body carries a `"message"` field
raises `APIError` with that message instead of returning the payload; a
200 JSON body without it is returned as the decoded success payload; a
200 non-JSON body is returned as raw text; a 204 returns no content as
success. -/
theorem c3_success_classification (req : Response) :
    (req.status = 200 → ∀ fields m, req.jsonBody = some fields →
      assocLookup fields "message" = some m →
      classify req = Except.error (RequestError.apiError req (some m))) ∧
    (req.status = 200 → ∀ fields, req.jsonBody = some fields →
      assocLookup fields "message" = none →
      classify req = Except.ok (RequestResult.json fields)) ∧
    (req.status = 200 → req.jsonBody = none →
      classify req = Except.ok (RequestResult.text req.text)) ∧
    (req.status = 204 → classify req = Except.ok RequestResult.empty) := by
  refine ⟨?_, ?_, ?_, ?_⟩
  · intro h200 fields m hj hm
    simp [classify, h200, hj, hm]
  · intro h200 fields hj hm
    simp [classify, h200, hj, hm]
  · intro h200 hj
    simp [classify, h200, hj]
  · intro h204
    simp [classify, h204]

/-- Witness for C3: the four branches at concrete 200/204 responses. -/
theorem c3_success_classification_witness :
    classify { status := 200, text := "", headers := [],
               jsonBody := some [("message", "bad thing")] } =
      Except.error (RequestError.apiError
        { status := 200, text := "", headers := [],
          jsonBody := some [("message", "bad thing")] } (some "bad thing")) ∧
    classify { status := 200, text := "", headers := [],
               jsonBody := some [("userId", "U-x")] } =
      Except.ok (RequestResult.json [("userId", "U-x")]) ∧
    classify { status := 200, text := "plain", headers := [], jsonBody := none } =
      Except.ok (RequestResult.text "plain") ∧
    classify { status := 204, text := "", headers := [], jsonBody := none } =
      Except.ok RequestResult.empty := by
  refine ⟨?_, ?_, ?_, ?_⟩
  · exact (c3_success_classification
      { status := 200, text := "", headers := [],
        jsonBody := some [("message", "bad thing")] }).1 rfl
      [("message", "bad thing")] "bad thing" rfl (by decide)
  · exact (c3_success_classification
      { status := 200, text := "", headers := [],
        jsonBody := some [("userId", "U-x")] }).2.1 rfl
      [("userId", "U-x")] rfl (by decide)
  · exact (c3_success_classification
      { status := 200, text := "plain", headers := [], jsonBody := none }).2.2.1
      rfl rfl
  · exact (c3_success_classification
      { status := 204, text := "", headers := [], jsonBody := none }).2.2.2 rfl

/-- C4: with `lastUpdate` set and the refresh gate not bypassed, an
elapsed time `now - lastUpdate` within the renewal window (the source's
threshold literal, 3600000 seconds) issues exactly one keep-alive PATCH
to `/userSessions` (itself bypassing the gate — it is a single plain
call), advances `lastUpdate` to `now`, and then issues the original
operation; an elapsed time beyond the window raises `InvalidToken` with
zero network calls.  The keep-alive branch is stated under the
assumption that the keep-alive response classifies as success (when it
raises, the exception propagates instead). -/
theorem c4_token_refresh (net : Net) (now lu : Int) (c : Client)
    (verb path : String) (params : List (String × ParamV))
    (hlu : c.lastUpdate = some lu) :
    (now - lu ≤ 3600000 →
      ∀ res, classify (net "patch" "/userSessions") = Except.ok res →
        Client.request net now c verb path params false =
          ([⟨"patch", "/userSessions", []⟩, ⟨verb, path, params⟩],
           { c with lastUpdate := some now }, classify (net verb path))) ∧
    (3600000 < now - lu →
      Client.request net now c verb path params false =
        ([], c,
         Except.error (RequestError.invalidToken (TokenErrInfo.text "Token expired")))) := by
  constructor
  · intro hle res hka
    simp [Client.request, hlu, hle, rawCall, hka]
  · intro hgt
    simp [Client.request, hlu, rawCall, not_le.mpr hgt]

/-- Witness for C4: a concrete in-window request issues the keep-alive
and the original call and advances `lastUpdate`; a concrete out-of-window
request fails with `InvalidToken` and issues nothing. -/
theorem c4_token_refresh_witness :
    Client.request (fun _ _ => ⟨200, "", [], some []⟩) 50 clientSample
      "get" "/users/U-w" [] false =
      ([⟨"patch", "/userSessions", []⟩, ⟨"get", "/users/U-w", []⟩],
       { clientSample with lastUpdate := some 50 },
       Except.ok (RequestResult.json [])) ∧
    Client.request (fun _ _ => ⟨200, "", [], some []⟩) 99999999 clientSample
      "get" "/users/U-w" [] false =
      ([], clientSample,
       Except.error (RequestError.invalidToken (TokenErrInfo.text "Token expired"))) := by
  constructor
  · exact (c4_token_refresh (fun _ _ => ⟨200, "", [], some []⟩) 50 20
      clientSample "get" "/users/U-w" [] rfl).1 (by decide)
      (RequestResult.json []) rfl
  · exact (c4_token_refresh (fun _ _ => ⟨200, "", [], some []⟩) 99999999 20
      clientSample "get" "/users/U-w" [] rfl).2 (by decide)

/-- C5: `logout` issues the DELETE on the session resource and clears
the stored credentials and the `Authorization` header only after the
server call classifies as success; when the DELETE raises, the local
session state is left unchanged. -/
theorem c5_logout (net : Net) (now : Int) (c : Client) :
    (∀ res, classify (net "delete" (logoutPath c)) = Except.ok res →
      ∃ c', Client.logout net now c =
          ([⟨"delete", logoutPath c, []⟩], c', Except.ok ()) ∧
        c'.userId = none ∧ c'.token = none ∧ c'.expire = none ∧
        c'.secretMachineId = none ∧ c'.lastUpdate = none ∧
        assocLookup c'.sessionHeaders "Authorization" = none) ∧
    (∀ e, classify (net "delete" (logoutPath c)) = Except.error e →
      Client.logout net now c =
        ([⟨"delete", logoutPath c, []⟩], c, Except.error e)) := by
  constructor
  · intro res hok
    refine ⟨Client.clean_session c, ?_, rfl, rfl, rfl, rfl, rfl,
      clean_session_no_auth c⟩
    simp [Client.logout, Client.request, rawCall, hok]
  · intro e herr
    simp [Client.logout, Client.request, rawCall, herr]

/-- Witness for C5: a concrete successful DELETE clears the state; a
concrete failing DELETE leaves the state untouched. -/
theorem c5_logout_witness :
    (∃ c', Client.logout (fun _ _ => ⟨204, "", [], none⟩) 7 clientSample =
        ([⟨"delete", logoutPath clientSample, []⟩], c', Except.ok ()) ∧
      c'.userId = none ∧ c'.token = none ∧ c'.expire = none ∧
      c'.secretMachineId = none ∧ c'.lastUpdate = none ∧
      assocLookup c'.sessionHeaders "Authorization" = none) ∧
    Client.logout (fun _ _ => ⟨500, "boom", [], none⟩) 7 clientSample =
      ([⟨"delete", logoutPath clientSample, []⟩], clientSample,
       Except.error (RequestError.apiError
         { status := 500, text := "boom", headers := [], jsonBody := none } none)) := by
  constructor
  · exact (c5_logout (fun _ _ => ⟨204, "", [], none⟩) 7 clientSample).1
      RequestResult.empty rfl
  · exact (c5_logout (fun _ _ => ⟨500, "boom", [], none⟩) 7 clientSample).2
      (RequestError.apiError
        { status := 500, text := "boom", headers := [], jsonBody := none } none)
      (by decide)

/-- C6: with a future `expire`, `saveToken` followed by `loadToken`
reproduces identical `userId`, `token` and `secretMachineId`; `loadToken`
fails with `NoToken` when the token file is absent, and fails with
`NoToken` when the stored `expire` is not in the future (raising before
any credential is assigned). -/
theorem c6_token_roundtrip (c cL : Client) (now e : Int)
    (he : c.expire = some e) :
    (now < e →
      ∃ c', Client.loadToken (Client.saveToken c) now cL = Except.ok c' ∧
        c'.userId = c.userId ∧ c'.token = c.token ∧
        c'.secretMachineId = c.secretMachineId) ∧
    (Client.loadToken none now cL = Except.error NoTokenError.noToken) ∧
    (e ≤ now →
      Client.loadToken (Client.saveToken c) now cL =
        Except.error NoTokenError.noToken) := by
  refine ⟨?_, rfl, ?_⟩
  · intro hlt
    simp only [Client.saveToken, he, Client.loadToken]
    rw [if_pos hlt]
    exact ⟨_, rfl, rfl, rfl, rfl⟩
  · intro hge
    simp only [Client.saveToken, he, Client.loadToken]
    rw [if_neg (not_lt.mpr hge)]

/-- Witness for C6: a concrete save/load round trip at `now = 50` with
`expire = 99`, the absent-file failure, and the expired failure at
`now = 200`. -/
theorem c6_token_roundtrip_witness :
    (∃ c', Client.loadToken (Client.saveToken clientSample) 50 clientEmpty =
        Except.ok c' ∧
      c'.userId = clientSample.userId ∧ c'.token = clientSample.token ∧
      c'.secretMachineId = clientSample.secretMachineId) ∧
    Client.loadToken none 50 clientEmpty = Except.error NoTokenError.noToken ∧
    Client.loadToken (Client.saveToken clientSample) 200 clientEmpty =
      Except.error NoTokenError.noToken := by
  refine ⟨?_, ?_, ?_⟩
  · exact (c6_token_roundtrip clientSample clientEmpty 50 99 rfl).1 (by decide)
  · exact (c6_token_roundtrip clientSample clientEmpty 50 99 rfl).2.1
  · exact (c6_token_roundtrip clientSample clientEmpty 200 99 rfl).2.2 (by decide)

/-- C7: constructing a `LoginDetails` fails with a validation error when
`ownerId`, `username` and `email` are all absent, and when `password` is
absent regardless of the identity fields; with at least one truthy
identity field and a truthy password it succeeds, and a success value is
always the fully-valid instance (never a partially-built one). -/
theorem c7_login_details (ownerId username email password : Option String)
    (smid : String) (rm : Bool) :
    (ownerId = none → username = none → email = none →
      ∃ msg, mkLoginDetails ownerId username email password smid rm =
        Except.error msg) ∧
    (password = none →
      ∃ msg, mkLoginDetails ownerId username email password smid rm =
        Except.error msg) ∧
    ((truthyOpt ownerId || truthyOpt username || truthyOpt email) = true →
      truthyOpt password = true →
      mkLoginDetails ownerId username email password smid rm =
        Except.ok { ownerId := ownerId, username := username, email := email,
                    password := password, secretMachineId := smid,
                    rememberMe := rm }) ∧
    (∀ ld, mkLoginDetails ownerId username email password smid rm =
        Except.ok ld →
      (truthyOpt ld.ownerId || truthyOpt ld.username || truthyOpt ld.email) = true ∧
      truthyOpt ld.password = true) := by
  refine ⟨?_, ?_, ?_, ?_⟩
  · intro h1 h2 h3
    rw [h1, h2, h3]
    exact ⟨_, rfl⟩
  · intro hp
    rw [hp]
    unfold mkLoginDetails
    by_cases hid : (!truthyOpt ownerId && !truthyOpt username && !truthyOpt email) = true
    · rw [if_pos hid]
      exact ⟨_, rfl⟩
    · rw [if_neg hid]
      exact ⟨_, rfl⟩
  · intro hid hp
    have hfirst : (!truthyOpt ownerId && !truthyOpt username && !truthyOpt email) = false := by
      cases h1 : truthyOpt ownerId <;> cases h2 : truthyOpt username <;>
        cases h3 : truthyOpt email <;> simp_all
    unfold mkLoginDetails
    rw [hfirst]
    simp [hp]
  · intro ld hld
    unfold mkLoginDetails at hld
    by_cases hid : (!truthyOpt ownerId && !truthyOpt username && !truthyOpt email) = true
    · rw [if_pos hid] at hld
      exact absurd hld (by simp)
    · rw [if_neg hid] at hld
      by_cases hp : (!truthyOpt password) = true
      · rw [if_pos hp] at hld
        exact absurd hld (by simp)
      · rw [if_neg hp] at hld
        injection hld with hfields
        subst hfields
        constructor
        · cases h1 : truthyOpt ownerId <;> cases h2 : truthyOpt username <;>
            cases h3 : truthyOpt email <;> simp_all
        · cases hpp : truthyOpt password <;> simp_all

/-- Witness for C7: the all-identity-absent failure, the missing-password
failure, and a concrete successful construction. -/
theorem c7_login_details_witness :
    (∃ msg, mkLoginDetails none none none (some "pw") "m" false =
      Except.error msg) ∧
    (∃ msg, mkLoginDetails (some "U-x") none none none "m" false =
      Except.error msg) ∧
    mkLoginDetails (some "U-x") none none (some "pw") "m" false =
      Except.ok { ownerId := some "U-x", username := none, email := none,
                  password := some "pw", secretMachineId := "m",
                  rememberMe := false } := by
  refine ⟨?_, ?_, ?_⟩
  · exact (c7_login_details none none none (some "pw") "m" false).1 rfl rfl rfl
  · exact (c7_login_details (some "U-x") none none none "m" false).2.1 rfl
  · exact (c7_login_details (some "U-x") none none (some "pw") "m" false).2.2.1
      (by decide) (by decide)

/-- C8: `getMessageLegacy` with a non-empty `fromTime` raises the
not-implemented error before any network call (the trace is empty); with
`fromTime` unset (and the refresh gate idle) the GET on the messages
endpoint is issued carrying `maxItems`, `unreadOnly` and — when a
non-empty `user` is supplied — the `user` parameter. -/
theorem c8_getMessageLegacy (net : Net) (now : Int) (c : Client)
    (fromTime : Option String) (maxItems : Int) (user : Option String)
    (unreadOnly : Bool) :
    (∀ s, fromTime = some s → s ≠ "" →
      Client.getMessageLegacy net now c fromTime maxItems user unreadOnly =
        ([], c,
         Except.error (RequestError.valueError "fromTime is not yet implemented"))) ∧
    (fromTime = none → c.lastUpdate = none →
      ∃ ps, Client.getMessageLegacy net now c fromTime maxItems user unreadOnly =
          ([⟨"get", "/users/" ++ optFormat c.userId ++ "/messages", ps⟩], c,
           classify (net "get" ("/users/" ++ optFormat c.userId ++ "/messages"))) ∧
        assocLookup ps "maxItems" = some (ParamV.int maxItems) ∧
        assocLookup ps "unreadOnly" = some (ParamV.bool unreadOnly) ∧
        (∀ u, user = some u → ¬u.isEmpty = true →
          assocLookup ps "user" = some (ParamV.str u))) := by
  constructor
  · intro s hs hne
    have ht : truthyOpt fromTime = true := by
      rw [hs]
      unfold truthyOpt
      cases h : s.isEmpty with
      | false => simp [h]
      | true => exact absurd ((String.isEmpty_iff s).mp h) hne
    simp [Client.getMessageLegacy, ht]
  · intro hft hlu
    rw [hft]
    have hnone : truthyOpt (none : Option String) = false := rfl
    by_cases hu : truthyOpt user = true
    · refine ⟨[("maxItems", ParamV.int maxItems),
               ("unreadOnly", ParamV.bool unreadOnly),
               ("user", ParamV.str (optFormat user))], ?_, by simp [assocLookup],
              by simp [assocLookup], ?_⟩
      · simp [Client.getMessageLegacy, hnone, hu, Client.request, hlu, rawCall]
      · intro u' hu' _
        simp [assocLookup, hu', optFormat]
    · have hu' : truthyOpt user = false := by
        cases h : truthyOpt user with
        | true => exact absurd h hu
        | false => rfl
      refine ⟨[("maxItems", ParamV.int maxItems),
               ("unreadOnly", ParamV.bool unreadOnly)], ?_, by simp [assocLookup],
              by simp [assocLookup], ?_⟩
      · simp [Client.getMessageLegacy, hnone, hu', Client.request, hlu, rawCall]
      · intro u'' hu'' hne
        rw [hu''] at hu'
        unfold truthyOpt at hu'
        simp [hne] at hu'

/-- Witness for C8: a concrete non-empty `fromTime` fails with the
not-implemented error and an empty trace; a concrete call without
`fromTime` issues the GET with its paging parameters. -/
theorem c8_getMessageLegacy_witness :
    Client.getMessageLegacy (fun _ _ => ⟨204, "", [], none⟩) 7 clientEmpty
      (some "2021-01-01") 100 none false =
      ([], clientEmpty,
       Except.error (RequestError.valueError "fromTime is not yet implemented")) ∧
    (∃ ps, Client.getMessageLegacy (fun _ _ => ⟨204, "", [], none⟩) 7 clientEmpty
        none 100 (some "U-f") true =
        ([⟨"get", "/users/" ++ optFormat clientEmpty.userId ++ "/messages", ps⟩],
         clientEmpty,
         classify ((fun _ _ => (⟨204, "", [], none⟩ : Response)) "get"
           ("/users/" ++ optFormat clientEmpty.userId ++ "/messages"))) ∧
      assocLookup ps "maxItems" = some (ParamV.int 100) ∧
      assocLookup ps "unreadOnly" = some (ParamV.bool true) ∧
      (∀ u, (some "U-f" : Option String) = some u → ¬u.isEmpty = true →
        assocLookup ps "user" = some (ParamV.str u))) := by
  constructor
  · exact (c8_getMessageLegacy (fun _ _ => ⟨204, "", [], none⟩) 7 clientEmpty
      (some "2021-01-01") 100 none false).1 "2021-01-01" rfl (by decide)
  · exact (c8_getMessageLegacy (fun _ _ => ⟨204, "", [], none⟩) 7 clientEmpty
      none 100 (some "U-f") true).2 rfl rfl

/-- C9: resolving a Link whose `assetUri.path` is `"/U-abc/R-def"`
issues a GET of `/users/U-abc/records/R-def` — the owner and record
identifiers come from the URI path segments — and the response is
decoded as a `NeosDirectory`, succeeding on any payload carrying the
directory's required fields with the base fields preserved. -/
theorem c9_resolveLink (response : RawRecord)
    (ho : response.ownerName.isSome = true)
    (htg : response.tags.isSome = true)
    (ht : (decodeRecordType response.recordType).isSome = true) :
    resolveLinkCall "/U-abc/R-def" =
      some ⟨"get", "/users/U-abc/records/R-def", []⟩ ∧
    ∃ d, decodeDirectory response = Except.ok d ∧
      basePreserved response d.base := by
  constructor
  · decide
  · obtain ⟨t, htt⟩ := Option.isSome_iff_exists.mp ht
    obtain ⟨o, hoo⟩ := Option.isSome_iff_exists.mp ho
    obtain ⟨tg, hgg⟩ := Option.isSome_iff_exists.mp htg
    refine ⟨{ base := mkBase response t
              lastModifyingMachineId := response.lastModifyingMachineId
              ownerName := o
              tags := tg
              creationTime := response.creationTime }, ?_, ?_⟩
    · simp [decodeDirectory, htt, decodeDirectoryFields, hoo, hgg]
    · exact basePreserved_mkBase response t htt

/-- Witness for C9: the concrete directory payload decodes. -/
theorem c9_resolveLink_witness :
    resolveLinkCall "/U-abc/R-def" =
      some ⟨"get", "/users/U-abc/records/R-def", []⟩ ∧
    ∃ d, decodeDirectory rawDirSample = Except.ok d ∧
      basePreserved rawDirSample d.base :=
  c9_resolveLink rawDirSample (by decide) (by decide) (by decide)

/-- C10: when `userId` or `token` is unset (falsy), the `headers`
property is only the `User-Agent` entry with no `Authorization` header,
and a request is still issued unauthenticated rather than failing
locally; the `Authorization` header `neos {userId}:{token}` is present
exactly when both `userId` and `token` are truthy. -/
theorem c10_headers (net : Net) (now : Int) (c : Client)
    (verb path : String) :
    ((truthyOpt c.userId = false ∨ truthyOpt c.token = false) →
      Client.headers c = [("User-Agent", userAgentValue)] ∧
      (c.lastUpdate = none →
        Client.request net now c verb path [] false =
          ([⟨verb, path, []⟩], c, classify (net verb path)))) ∧
    (assocLookup (Client.headers c) "Authorization" = none ↔
      (truthyOpt c.userId = false ∨ truthyOpt c.token = false)) ∧
    (∀ u t, c.userId = some u → c.token = some t →
      truthyOpt c.userId = true → truthyOpt c.token = true →
      assocLookup (Client.headers c) "Authorization" =
        some ("neos " ++ u ++ ":" ++ t)) := by
  refine ⟨?_, ?_, ?_⟩
  · intro h
    constructor
    · rcases h with h | h <;> simp [Client.headers, h]
    · intro hlu
      simp [Client.request, hlu, rawCall]
  · have hbf : ∀ b : Bool, ¬b = true → b = false := by
      intro b hb
      cases b with
      | true => exact absurd rfl hb
      | false => rfl
    by_cases h1 : truthyOpt c.userId = true <;>
      by_cases h2 : truthyOpt c.token = true
    · simp [Client.headers, h1, h2, assocLookup]
    · simp [Client.headers, h1, hbf _ h2, assocLookup]
    · simp [Client.headers, hbf _ h1, assocLookup]
    · simp [Client.headers, hbf _ h1, assocLookup]
  · intro u t hu htk hut htt
    rw [hu] at hut
    rw [htk] at htt
    simp [Client.headers, hu, htk, hut, htt, optFormat, assocLookup]

/-- Witness for C10: the unauthenticated client has bare headers and
still issues its request; the authenticated client carries the
`Authorization` header. -/
theorem c10_headers_witness :
    (Client.headers clientEmpty = [("User-Agent", userAgentValue)] ∧
      Client.request (fun _ _ => ⟨204, "", [], none⟩) 7 clientEmpty
        "get" "/users" [] false =
        ([⟨"get", "/users", []⟩], clientEmpty,
         classify ((fun _ _ => (⟨204, "", [], none⟩ : Response)) "get" "/users"))) ∧
    assocLookup (Client.headers clientSample) "Authorization" =
      some ("neos " ++ "U-w" ++ ":" ++ "tok") := by
  constructor
  · have h := (c10_headers (fun _ _ => ⟨204, "", [], none⟩) 7 clientEmpty
      "get" "/users").1 (by decide)
    exact ⟨h.1, h.2 rfl⟩
  · exact (c10_headers (fun _ _ => ⟨204, "", [], none⟩) 7 clientSample
      "get" "/users").2.2 "U-w" "tok" rfl rfl (by decide) (by decide)

end Neosvrpy
